import Mathlib

/-!
# Verification of the HealthBud resilient assessment layer

A shallow embedding, in Lean 4, of the core of the `Backend/app` package:

* `app/services/gemini_client.py` — `LLMClient` (`enabled`, `_extract_openrouter_text`,
  `_safe_parse_json`),
* `app/services/chatbot.py` — `ChatbotService` (`assess_health_input`,
  `_normalize_assessment_payload`, `_enforce_second_person_voice`, `_normalize_urgency`,
  `_looks_like_health_message`, `_fallback_for_any_message`, `_fallback_general_message`,
  `_fallback_assessment`),
* `app/core/security.py` — `_enforce_rate_limit`,
* `app/services/chat_analysis.py` — `ChatAnalysisService._fallback_analysis`.

Python values arriving from `json.loads` are modelled by the inductive type `JValue`
(numbers as rationals; Python `bool` counts as numeric for `isinstance(_, (int, float))`,
mirroring `bool` being a subclass of `int`).  Exceptions are modelled with `Except`.
Network calls are modelled by passing their outcome (`Except String JValue`) as an
explicit argument to the orchestrator.
-/

namespace HealthBud

/-! ## Python-faithful string primitives -/

/-- The backtick character (used by the code-fence stripper). -/
def btick : Char := Char.ofNat 96

/-- The opening brace character. -/
def lbrace : Char := Char.ofNat 123

/-- The closing brace character. -/
def rbrace : Char := Char.ofNat 125

/-- Whitespace for `str.strip()` (ASCII subset; the Python method also strips other
Unicode whitespace, which none of the constants in this code base contain). -/
def pyIsWs (c : Char) : Bool :=
  c = ' ' || c = '\t' || c = '\n' || c = '\r' || c = '\x0b' || c = '\x0c'

/-- `str.strip()` on a list of characters. -/
def pyStripChars (cs : List Char) : List Char :=
  ((cs.dropWhile pyIsWs).reverse.dropWhile pyIsWs).reverse

/-- `str.strip()`. -/
def pyStrip (s : String) : String :=
  ⟨pyStripChars s.toList⟩

/-- `str.strip("x")` for a single strip character. -/
def pyStripChar (c : Char) (s : String) : String :=
  ⟨((s.toList.dropWhile (· = c)).reverse.dropWhile (· = c)).reverse⟩

/-- `str.lower()` (ASCII; all keywords in the code base are ASCII). -/
def pyLower (s : String) : String :=
  ⟨s.toList.map Char.toLower⟩

/-- Substring containment, Python's `needle in haystack`. -/
def pySubstr (needle haystack : String) : Prop :=
  needle.toList <:+: haystack.toList

instance (needle haystack : String) : Decidable (pySubstr needle haystack) :=
  inferInstanceAs (Decidable (needle.toList <:+: haystack.toList))

/-- Auxiliary loop for `str.replace`: replaces non-overlapping occurrences of `pat`,
scanning left to right.  The fuel is the length of the remaining text, which bounds
the recursion because every step consumes at least one character. -/
def pyReplaceAux (pat repl : List Char) : Nat → List Char → List Char
  | _, [] => []
  | 0, cs => cs
  | fuel + 1, c :: cs =>
      if pat ≠ [] ∧ pat.isPrefixOf (c :: cs) then
        repl ++ pyReplaceAux pat repl fuel (List.drop (pat.length - 1) cs)
      else
        c :: pyReplaceAux pat repl fuel cs

/-- Python `str.replace(pat, repl)` (for non-empty `pat`, the only case the code uses). -/
def pyReplace (s pat repl : String) : String :=
  ⟨pyReplaceAux pat.toList repl.toList s.toList.length s.toList⟩

/-- `str.startswith(prefix)`. -/
def pyStartsWith (pre s : String) : Bool :=
  pre.toList.isPrefixOf s.toList

/-! ## JSON values (`json.loads` results) -/

/-- A decoded JSON value as produced by Python's `json.loads`. -/
inductive JValue where
  | jnull : JValue
  | jbool : Bool → JValue
  | jnum : ℚ → JValue
  | jstr : String → JValue
  | jarr : List JValue → JValue
  | jobj : List (String × JValue) → JValue

/-- Python truthiness (`bool(v)`) of a decoded JSON value. -/
def pyTruthy : JValue → Bool
  | .jnull => false
  | .jbool b => b
  | .jnum q => q ≠ 0
  | .jstr s => s ≠ ""
  | .jarr xs => !xs.isEmpty
  | .jobj fs => !fs.isEmpty

/-- `dict.get(key)` on a decoded JSON object: the last binding wins (as in a Python
dict built by `json.loads`), `None` when the value is not a dict or the key is
missing (modelled as `Option`). -/
def jget : JValue → String → Option JValue
  | .jobj fs, key => (fs.reverse.find? (fun p => p.1 == key)).map Prod.snd
  | _, _ => none

/-- `dict.get(key, default)`. -/
def jgetD (v : JValue) (key : String) (dflt : JValue) : JValue :=
  (jget v key).getD dflt

/-- Is the value a JSON object (`isinstance(v, dict)`)? -/
def JValue.isObj : JValue → Bool
  | .jobj _ => true
  | _ => false

/-! ## A model of `json.loads`

A recursive-descent RFC 8259 parser into `JValue` (fuel-bounded to make the
recursion structural; the fuel passed at top level suffices for any nesting
depth bounded by twice the input length, which covers every input the code can
receive short of pathological nesting).  Python's non-standard acceptance of
`NaN`/`Infinity` literals is not modelled: no value of this code base uses them. -/

/-- JSON whitespace (the exact set `json.loads` skips between tokens). -/
def jsonWs (c : Char) : Bool :=
  c = ' ' || c = '\t' || c = '\n' || c = '\r'

/-- Skip JSON whitespace. -/
def skipWs (cs : List Char) : List Char :=
  cs.dropWhile jsonWs

/-- A hex digit's value, if any. -/
def hexVal (c : Char) : Option Nat :=
  if '0' ≤ c ∧ c ≤ '9' then some (c.toNat - '0'.toNat)
  else if 'a' ≤ c ∧ c ≤ 'f' then some (c.toNat - 'a'.toNat + 10)
  else if 'A' ≤ c ∧ c ≤ 'F' then some (c.toNat - 'A'.toNat + 10)
  else none

/-- Parse the body of a JSON string literal (the opening quote already consumed),
returning the decoded characters and the rest of the input.  Control characters
are rejected, as in strict-mode `json.loads`. -/
def parseStrChars : Nat → List Char → Option (List Char × List Char)
  | 0, _ => none
  | _ + 1, [] => none
  | fuel + 1, c :: cs =>
      if c = '"' then
        some ([], cs)
      else if c = '\\' then
        match cs with
        | [] => none
        | e :: cs2 =>
            let simple : Option Char :=
              if e = '"' then some '"'
              else if e = '\\' then some '\\'
              else if e = '/' then some '/'
              else if e = 'b' then some '\x08'
              else if e = 'f' then some '\x0c'
              else if e = 'n' then some '\n'
              else if e = 'r' then some '\r'
              else if e = 't' then some '\t'
              else none
            match simple with
            | some ch =>
                match parseStrChars fuel cs2 with
                | some (tail, rest) => some (ch :: tail, rest)
                | none => none
            | none =>
                if e = 'u' then
                  match cs2 with
                  | h1 :: h2 :: h3 :: h4 :: cs3 =>
                      match hexVal h1, hexVal h2, hexVal h3, hexVal h4 with
                      | some a, some b, some c3, some d =>
                          let code := ((a * 16 + b) * 16 + c3) * 16 + d
                          match parseStrChars fuel cs3 with
                          | some (tail, rest) => some (Char.ofNat code :: tail, rest)
                          | none => none
                      | _, _, _, _ => none
                  | _ => none
                else none
      else if c.toNat < 32 then none
      else
        match parseStrChars fuel cs with
        | some (tail, rest) => some (c :: tail, rest)
        | none => none

/-- Digits at the front of the input. -/
def takeDigits (cs : List Char) : List Char × List Char :=
  (cs.takeWhile Char.isDigit, cs.dropWhile Char.isDigit)

/-- Natural-number value of a digit string. -/
def digitsToNat (ds : List Char) : Nat :=
  ds.foldl (fun acc c => acc * 10 + (c.toNat - '0'.toNat)) 0

/-- Assemble a parsed JSON number from its sign, digits and exponent. -/
def numValue (neg : Bool) (intDs fracDs : List Char) (expNeg : Bool)
    (expDs : List Char) : ℚ :=
  let mantissa : ℚ := (digitsToNat (intDs ++ fracDs) : ℚ) / (10 : ℚ) ^ fracDs.length
  let expo : ℤ :=
    if expNeg then -(digitsToNat expDs : ℤ) else (digitsToNat expDs : ℤ)
  let magnitude : ℚ := mantissa * (10 : ℚ) ^ expo
  if neg then -magnitude else magnitude

/-- Parse the optional exponent part of a JSON number and assemble the value. -/
def parseNumExp (neg : Bool) (intDs fracDs cs3 : List Char) : Option (ℚ × List Char) :=
  match cs3 with
  | e :: rest =>
      if e = 'e' ∨ e = 'E' then
        let (expNeg, rest1) :=
          match rest with
          | '+' :: rest2 => (false, rest2)
          | '-' :: rest2 => (true, rest2)
          | _ => (false, rest)
        let (ds, rest3) := takeDigits rest1
        if ds = [] then none
        else some (numValue neg intDs fracDs expNeg ds, rest3)
      else some (numValue neg intDs fracDs false [], cs3)
  | [] => some (numValue neg intDs fracDs false [], cs3)

/-- Parse a JSON number (strict grammar: an optional minus sign, an integer part
with no leading zeros, an optional fraction, an optional exponent). -/
def parseNumber (cs : List Char) : Option (ℚ × List Char) :=
  let (neg, cs1) :=
    match cs with
    | '-' :: rest => (true, rest)
    | _ => (false, cs)
  let (intDs, cs2) := takeDigits cs1
  if intDs = [] then none
  else if intDs.length > 1 ∧ intDs.headI = '0' then none
  else
    match cs2 with
    | '.' :: rest =>
        let (fracDs, cs3) := takeDigits rest
        if fracDs = [] then none
        else parseNumExp neg intDs fracDs cs3
    | _ => parseNumExp neg intDs [] cs2

/-- Parser modes: one JSON value, the members of an object (after the opening
brace, at least one member), or the elements of an array (after the opening
bracket, at least one element). -/
inductive PMode where
  | value : PMode
  | fields : PMode
  | elems : PMode

/-- The result of one parser step, per mode. -/
inductive POut where
  | val : JValue → POut
  | fs : List (String × JValue) → POut
  | es : List JValue → POut

/-- The recursive-descent core, structurally recursive on its fuel (every
recursive call decreases the fuel by one, and every recursive call follows the
consumption of at least one input character, so a fuel of twice the input
length suffices). -/
def parseCore : Nat → PMode → List Char → Option (POut × List Char)
  | 0, _, _ => none
  | fuel + 1, .value, cs0 =>
      match skipWs cs0 with
      | [] => none
      | c :: rest =>
          if c = '"' then
            match parseStrChars (rest.length + 1) rest with
            | some (chars, rest2) => some (.val (.jstr ⟨chars⟩), rest2)
            | none => none
          else if c = lbrace then
            match skipWs rest with
            | c2 :: rest2 =>
                if c2 = rbrace then some (.val (.jobj []), rest2)
                else
                  match parseCore fuel .fields (skipWs rest) with
                  | some (.fs fields, rest3) => some (.val (.jobj fields), rest3)
                  | _ => none
            | [] => none
          else if c = '[' then
            match skipWs rest with
            | c2 :: rest2 =>
                if c2 = ']' then some (.val (.jarr []), rest2)
                else
                  match parseCore fuel .elems (skipWs rest) with
                  | some (.es xs, rest3) => some (.val (.jarr xs), rest3)
                  | _ => none
            | [] => none
          else if ['t', 'r', 'u', 'e'].isPrefixOf (c :: rest) then
            some (.val (.jbool true), (c :: rest).drop 4)
          else if ['f', 'a', 'l', 's', 'e'].isPrefixOf (c :: rest) then
            some (.val (.jbool false), (c :: rest).drop 5)
          else if ['n', 'u', 'l', 'l'].isPrefixOf (c :: rest) then
            some (.val .jnull, (c :: rest).drop 4)
          else
            match parseNumber (c :: rest) with
            | some (q, rest2) => some (.val (.jnum q), rest2)
            | none => none
  | fuel + 1, .fields, cs =>
      match skipWs cs with
      | c :: rest =>
          if c = '"' then
            match parseStrChars (rest.length + 1) rest with
            | some (keyChars, rest2) =>
                match skipWs rest2 with
                | ':' :: rest3 =>
                    match parseCore fuel .value rest3 with
                    | some (.val v, rest4) =>
                        match skipWs rest4 with
                        | sep :: rest5 =>
                            if sep = ',' then
                              match parseCore fuel .fields rest5 with
                              | some (.fs fields, rest6) =>
                                  some (.fs ((⟨keyChars⟩, v) :: fields), rest6)
                              | _ => none
                            else if sep = rbrace then
                              some (.fs [(⟨keyChars⟩, v)], rest5)
                            else none
                        | [] => none
                    | _ => none
                | _ => none
            | none => none
          else none
      | [] => none
  | fuel + 1, .elems, cs =>
      match parseCore fuel .value cs with
      | some (.val v, rest) =>
          match skipWs rest with
          | sep :: rest2 =>
              if sep = ',' then
                match parseCore fuel .elems rest2 with
                | some (.es xs, rest3) => some (.es (v :: xs), rest3)
                | _ => none
              else if sep = ']' then
                some (.es [v], rest2)
              else none
          | [] => none
      | _ => none

/-- Parse one JSON value; returns the value and the unconsumed input. -/
def parseValue (fuel : Nat) (cs : List Char) : Option (JValue × List Char) :=
  match parseCore fuel .value cs with
  | some (.val v, rest) => some (v, rest)
  | _ => none


/-- The model of `json.loads`: parse one value and require only trailing
whitespace after it. -/
def jsonParse (s : String) : Option JValue :=
  match parseValue (2 * s.toList.length + 2) s.toList with
  | some (v, rest) => if skipWs rest = [] then some v else none
  | none => none

/-! ## `LLMClient` (`app/services/gemini_client.py`) -/

/-- The code-fence stripping prelude of `LLMClient._safe_parse_json`:
`cleaned = str(text or "").strip()`, then if it starts with three backticks,
strip backticks from both ends and drop a leading `json` language tag. -/
def cleanFence (text : String) : String :=
  let cleaned := pyStrip text
  if pyStartsWith ⟨[btick, btick, btick]⟩ cleaned then
    let cleaned := pyStripChar btick cleaned
    if pyStartsWith "json" cleaned then pyStrip (⟨cleaned.toList.drop 4⟩ : String)
    else cleaned
  else cleaned

/-- `str.find(c)`: index of the first occurrence, `none` for Python's `-1`. -/
def pyFind (c : Char) (s : String) : Option Nat :=
  s.toList.findIdx? (· = c)

/-- `str.rfind(c)`: index of the last occurrence, `none` for Python's `-1`. -/
def pyRfind (c : Char) (s : String) : Option Nat :=
  (s.toList.reverse.findIdx? (· = c)).map (fun i => s.toList.length - 1 - i)

/-- The `cleaned[start : end + 1]` brace-delimited substring tried as a last
resort: present exactly when a first `\x7b` and a last `\x7d` exist with the
`\x7d` strictly after the `\x7b`. -/
def braceCandidate (cleaned : String) : Option String :=
  match pyFind lbrace cleaned, pyRfind rbrace cleaned with
  | some s, some e =>
      if e > s then some ⟨(cleaned.toList.drop s).take (e + 1 - s)⟩ else none
  | _, _ => none

/-- The minimal object synthesised from a non-JSON model reply: the cleaned text
as both the assistant message and the summary. -/
def minimalObj (cleaned : String) : JValue :=
  .jobj [("assistant_message", .jstr cleaned), ("summary", .jstr cleaned)]

/-- `LLMClient._safe_parse_json`.  `Except.error` models an exception escaping the
method: the `RuntimeError` raised on a non-object strict parse (not caught by the
`except json.JSONDecodeError` clause), the uncaught `json.JSONDecodeError` of the
brace-substring parse, and the final `RuntimeError` on an empty cleaned string. -/
def safeParseJson (text : String) : Except String JValue :=
  let cleaned := cleanFence text
  match jsonParse cleaned with
  | some v =>
      if v.isObj then .ok v
      else .error "Model did not return a JSON object"
  | none =>
      match braceCandidate cleaned with
      | some candidate =>
          match jsonParse candidate with
          | some v =>
              if v.isObj then .ok v
              else if cleaned ≠ "" then .ok (minimalObj cleaned)
              else .error "Model response was not valid JSON"
          | none => .error "json.JSONDecodeError"
      | none =>
          if cleaned ≠ "" then .ok (minimalObj cleaned)
          else .error "Model response was not valid JSON"

/-- `LLMClient._extract_openrouter_text`: pull one textual payload out of a decoded
provider-A chat message. -/
def extractOpenrouterText (message : JValue) : String :=
  match message with
  | .jobj _ =>
      let content := jgetD message "content" (.jstr "")
      match content with
      | .jstr s => s
      | .jarr items =>
          let parts : List String := items.filterMap (fun item =>
            match item with
            | .jstr s => some s
            | .jobj _ =>
                let tv := jgetD item "text" .jnull
                let textValue := if pyTruthy tv then tv else jgetD item "content" .jnull
                match textValue with
                | .jstr s => some s
                | _ => none
            | _ => none)
          if ¬parts.isEmpty then String.join parts
          else extractToolCallArgs (jgetD message "tool_calls" (.jarr []))
      | _ => extractToolCallArgs (jgetD message "tool_calls" (.jarr []))
  | _ => ""
where
  -- The `tool_calls` scan: the first call whose `function.arguments` is a string
  -- with non-empty strip is returned verbatim.
  extractToolCallArgs : JValue → String
  | .jarr calls =>
      let hit := calls.find? (fun call =>
        match call with
        | .jobj _ =>
            match jgetD call "function" (.jobj []) with
            | .jobj _ =>
                match jget (jgetD call "function" (.jobj [])) "arguments" with
                | some (.jstr s) => pyStrip s ≠ ""
                | _ => false
            | _ => false
        | _ => false)
      match hit with
      | some call =>
          match jget (jgetD call "function" (.jobj [])) "arguments" with
          | some (.jstr s) => s
          | _ => ""
      | none => ""
  | _ => ""

/-- `LLMClient.enabled`, composed with the constructor's key normalisation
(`api_key.strip()` when the key is a string, `None` kept as `None`). -/
def llmEnabled (apiKey : Option String) : Bool :=
  match apiKey with
  | none => false
  | some raw =>
      let key := pyStrip raw
      if key = "" then false
      else
        let normalized := pyLower (pyStrip key)
        normalized ≠ "" && !pyStartsWith "your_" normalized

/-! ## Data model (`app/models/chat.py`) -/

/-- A symptom entry of a `ChatAssessmentRequest` / stored `ChatRecord` (only the
fields the assessment core reads: the remaining optional attributes are forwarded
to the provider verbatim and never inspected). -/
structure SymptomInput where
  name : String
  severity : Nat
  deriving DecidableEq, Repr

/-- A `ChatAssessmentRequest` (the fields the core reads; `patient_context`,
`locale` and `session_id` are only forwarded to the provider). -/
structure ChatPayload where
  message : String
  symptoms : List SymptomInput
  deriving DecidableEq, Repr

/-- One conversation-history turn, as read by `_looks_like_health_message`
(`str(turn.get("user_message", ""))`). -/
structure HistoryTurn where
  userMessage : String
  deriving DecidableEq, Repr

/-- `AssessmentData`: the strict output schema.  `urgency_level` carries the
string value of the `UrgencyLevel` enum. -/
structure AssessmentData where
  assistant_message : String
  show_structured_output : Bool
  summary : String
  follow_up_questions : List String
  possible_conditions : List String
  possible_remedies : List String
  urgency_level : String
  urgency_reason : String
  seek_care_within : String
  red_flags : List String
  specialist_types : List String
  safety_disclaimer : String
  deriving DecidableEq, Repr

/-! ## `ChatbotService` (`app/services/chatbot.py`) -/

/-- The recognised urgency tokens. -/
def urgencyTokens : List String := ["low", "medium", "high", "emergency"]

/-- The numeric bucketing of `_normalize_urgency`. -/
def bucketScore (score : ℚ) : String :=
  if score ≥ 8 then "emergency"
  else if score ≥ 6 then "high"
  else if score ≥ 3 then "medium"
  else "low"

/-- `ChatbotService._normalize_urgency`.  A Python `bool` reaches the
`isinstance(value, (int, float))` branch (`bool` subclasses `int`), so `jbool`
is bucketed as the number `0` or `1`. -/
def normalizeUrgency : JValue → String
  | .jstr s =>
      let candidate := pyLower (pyStrip s)
      if candidate ∈ urgencyTokens then candidate else "medium"
  | .jnum q => bucketScore q
  | .jbool b => bucketScore (if b then 1 else 0)
  | _ => "medium"

/-- The fixed replacement table of `_enforce_second_person_voice`, in Python
dict-insertion order. -/
def replacements : List (String × String) :=
  [("The user", "You"), ("the user", "you"),
   ("This user", "You"), ("this user", "you"),
   ("The patient", "You"), ("the patient", "you"),
   ("User reports", "You report"), ("user reports", "you report"),
   ("User is", "You are"), ("user is", "you are"),
   ("User has", "You have"), ("user has", "you have"),
   ("Patient reports", "You report"), ("patient reports", "you report"),
   ("Patient is", "You are"), ("patient is", "you are"),
   ("Patient has", "You have"), ("patient has", "you have")]

/-- The inner `rewrite` of `_enforce_second_person_voice`: the table applied
sequentially with `str.replace`. -/
def rewriteSecondPerson (text : String) : String :=
  replacements.foldl (fun acc p => pyReplace acc p.1 p.2) text

/-- `_enforce_second_person_voice`: rewrite the five scalar text fields and the
five list fields (at this point every field has its schema type, so the
`isinstance` guards in the Python loop always hold). -/
def enforceSecondPersonVoice (a : AssessmentData) : AssessmentData :=
  { a with
    assistant_message := rewriteSecondPerson a.assistant_message
    summary := rewriteSecondPerson a.summary
    urgency_reason := rewriteSecondPerson a.urgency_reason
    seek_care_within := rewriteSecondPerson a.seek_care_within
    safety_disclaimer := rewriteSecondPerson a.safety_disclaimer
    follow_up_questions := a.follow_up_questions.map rewriteSecondPerson
    possible_conditions := a.possible_conditions.map rewriteSecondPerson
    possible_remedies := a.possible_remedies.map rewriteSecondPerson
    red_flags := a.red_flags.map rewriteSecondPerson
    specialist_types := a.specialist_types.map rewriteSecondPerson }

/-- Python `str(v)` on a decoded JSON value.  The renderings of numbers and
containers are approximations of CPython's (no normalised field ever holds one
on the paths the theorems below exercise). -/
def pyStr : JValue → String
  | .jnull => "None"
  | .jbool b => if b then "True" else "False"
  | .jstr s => s
  | .jnum q => toString q.num ++ (if q.den = 1 then "" else "/" ++ toString q.den)
  | .jarr _ => "<list>"
  | .jobj _ => "<dict>"

/-- Python iteration over a decoded JSON value, as used by the
`[str(item) for item in field]` comprehensions: lists yield elements, dicts
yield their keys, strings yield characters, everything else raises `TypeError`. -/
def pyIter : JValue → Except String (List JValue)
  | .jarr xs => .ok xs
  | .jobj fs => .ok (fs.map (fun p => .jstr p.1))
  | .jstr s => .ok (s.toList.map (fun c => .jstr ⟨[c]⟩))
  | _ => .error "TypeError: object is not iterable"

/-- `x or y or z` over two optional dict lookups and a literal default, followed
by `str(...)` (the `assistant_message` / `summary` style defaulting). -/
def strOrDefault2 (a b : JValue) (dflt : String) : String :=
  pyStr (if pyTruthy a then a else if pyTruthy b then b else .jstr dflt)

/-- `str(parsed.get(key) or default)`. -/
def strOrDefault (v : JValue) (dflt : String) : String :=
  pyStr (if pyTruthy v then v else .jstr dflt)

/-- The `if isinstance(field, str): field = [field]` wrapping of the list-typed
fields. -/
def wrapStr (v : JValue) : JValue :=
  match v with
  | .jstr s => .jarr [.jstr s]
  | other => other

/-- The four default follow-up questions substituted on a health-related turn
with no model-provided questions. -/
def defaultFollowUps : List String :=
  ["When did this start, and has it been getting better, worse, or staying the same?",
   "How severe is it right now on a scale of 0 to 10?",
   "Do you have any other symptoms like fever, shortness of breath, vomiting, or dizziness?",
   "What makes it better or worse, and have you tried any treatment so far?"]

/-- `ChatbotService._normalize_assessment_payload`.  `Except.error` models the
`ValueError` raised on a non-dict payload and the `TypeError` a comprehension
raises on a non-iterable field value. -/
def normalizeAssessmentPayload (parsed : JValue) (healthRelated : Bool) :
    Except String AssessmentData := do
  match parsed with
  | .jobj _ =>
      let urgency := normalizeUrgency (jgetD parsed "urgency_level" (.jstr "medium"))
      let followUp ← pyIter (wrapStr (jgetD parsed "follow_up_questions" (.jarr [])))
      let conditions ← pyIter (wrapStr (jgetD parsed "possible_conditions" (.jarr [])))
      let remedies ← pyIter (wrapStr (jgetD parsed "possible_remedies" (.jarr [])))
      let redFlags ← pyIter (wrapStr (jgetD parsed "red_flags" (.jarr [])))
      let specialists ← pyIter (wrapStr (jgetD parsed "specialist_types" (.jarr [])))
      let base : AssessmentData :=
        { assistant_message :=
            strOrDefault2 (jgetD parsed "assistant_message" .jnull) (jgetD parsed "summary" .jnull)
              "I am here to help. Tell me what you are feeling today."
          show_structured_output := true
          summary := strOrDefault (jgetD parsed "summary" .jnull) "AI triage assessment generated."
          follow_up_questions := followUp.map pyStr
          possible_conditions := conditions.map pyStr
          possible_remedies := remedies.map pyStr
          urgency_level := urgency
          urgency_reason :=
            strOrDefault (jgetD parsed "urgency_reason" .jnull)
              "Estimated from symptoms and available context."
          seek_care_within :=
            strOrDefault (jgetD parsed "seek_care_within" .jnull)
              "Within 24-48 hours if symptoms persist or worsen."
          red_flags := redFlags.map pyStr
          specialist_types := specialists.map pyStr
          safety_disclaimer :=
            strOrDefault (jgetD parsed "safety_disclaimer" .jnull)
              "This is not a medical diagnosis. Seek urgent care for severe or worsening symptoms." }
      let adjusted : AssessmentData :=
        if ¬healthRelated then
          { base with
            show_structured_output := false
            urgency_level := "low"
            urgency_reason := "No health symptoms were provided in this message."
            seek_care_within := "Not applicable unless you develop symptoms."
            possible_conditions := []
            possible_remedies := []
            follow_up_questions := []
            red_flags := []
            specialist_types := [] }
        else if base.follow_up_questions.isEmpty then
          { base with follow_up_questions := defaultFollowUps }
        else base
      return enforceSecondPersonVoice adjusted
  | _ => throw "LLM response must be a JSON object"

/-- The fixed health-keyword set of `_looks_like_health_message`. -/
def healthTerms : List String :=
  ["pain", "fever", "cough", "vomit", "nausea", "headache", "dizzy", "breath",
   "chest", "doctor", "symptom", "sick", "ill"]

/-- `ChatbotService._looks_like_health_message`. -/
def looksLikeHealthMessage (p : ChatPayload) (history : List HistoryTurn) : Bool :=
  if ¬p.symptoms.isEmpty then true
  else
    let text := pyLower p.message
    let historyText := String.intercalate " " (history.map (fun t => pyLower t.userMessage))
    let combined := pyStrip (text ++ " " ++ historyText)
    healthTerms.any (fun term => decide (pySubstr term combined))

/-- `ChatbotService._fallback_general_message`: the non-clinical canned reply. -/
def fallbackGeneralMessage (p : ChatPayload) : AssessmentData :=
  let messageExcerpt : String := ⟨(pyStrip p.message).toList.take 180⟩
  { assistant_message :=
      "I hear you — you said: '" ++ messageExcerpt ++ "'. I can chat about that. " ++
      "Whenever you want, share how your body feels today and I can help with a health check-in."
    show_structured_output := false
    summary := "General conversational message received: '" ++ messageExcerpt ++ "'."
    follow_up_questions := []
    possible_conditions := []
    possible_remedies := []
    urgency_level := "low"
    urgency_reason := "No clear health-risk indicators were detected from this non-health message."
    seek_care_within := "Not applicable unless you have symptoms."
    red_flags := []
    specialist_types := []
    safety_disclaimer := "For urgent or severe symptoms, seek immediate in-person medical care." }

/-- The emergency keyword list of `_fallback_assessment`. -/
def emergencyTerms : List String :=
  ["chest pain", "difficulty breathing", "can't breathe", "stroke", "seizure",
   "fainted", "passed out", "bleeding heavily"]

/-- The high-risk keyword list of `_fallback_assessment`. -/
def highTerms : List String :=
  ["high fever", "persistent vomiting", "severe headache", "blood pressure"]

/-- The combined lowercase haystack of `_fallback_assessment`:
`" ".join([message.lower(), *symptom_names_lowered])`. -/
def fallbackCombined (p : ChatPayload) : String :=
  String.intercalate " " (pyLower p.message :: p.symptoms.map (fun s => pyLower s.name))

/-- `ChatbotService._fallback_assessment`: the deterministic keyword-tier triage. -/
def fallbackAssessment (p : ChatPayload) : AssessmentData :=
  let combined := fallbackCombined p
  let tier : String × String × String × List String × List String :=
    if emergencyTerms.any (fun term => decide (pySubstr term combined)) then
      ("emergency",
       "Immediately (call emergency services now).",
       "Possible emergency warning signs were detected in your symptoms.",
       ["Cardiovascular emergency", "Respiratory emergency", "Neurological emergency"],
       ["Emergency Medicine", "Cardiology", "Neurology"])
    else if highTerms.any (fun term => decide (pySubstr term combined)) then
      ("high",
       "Within 4-12 hours, preferably urgent care or ER if worsening.",
       "Potentially serious symptoms may need rapid in-person evaluation.",
       ["Acute infection", "Migraine or neurological issue", "Metabolic issue"],
       ["Internal Medicine", "Emergency Medicine", "Neurology"])
    else
      ("medium",
       "Within 24-48 hours if symptoms persist or worsen.",
       "Symptoms appear non-emergency but should still be reviewed clinically.",
       ["Viral illness", "Mild gastrointestinal issue", "Stress-related symptoms"],
       ["General Practitioner", "Internal Medicine"])
  { assistant_message :=
      "Thanks for sharing that. From what you described, here’s what I’m thinking right now. " ++
      "I’ll keep it simple, and if your symptoms get worse I’ll tell you when to escalate care."
    show_structured_output := true
    summary := "Preliminary triage generated from your message and symptom details."
    follow_up_questions :=
      ["When did each symptom start, and has it changed over time?",
       "Do you have fever, chest pain, shortness of breath, or fainting?",
       "What medications have you taken for this and did they help?"]
    possible_conditions := tier.2.2.2.1
    possible_remedies :=
      ["Rest, hydration, and symptom monitoring.",
       "Use only previously prescribed or pharmacist-recommended over-the-counter medicine.",
       "Avoid strenuous activity until assessed if symptoms are worsening."]
    urgency_level := tier.1
    urgency_reason := tier.2.2.1
    seek_care_within := tier.2.1
    red_flags :=
      ["Severe chest pain",
       "Difficulty breathing",
       "Confusion, fainting, or seizures",
       "Uncontrolled bleeding"]
    specialist_types := tier.2.2.2.2
    safety_disclaimer :=
      "This is not a medical diagnosis. If symptoms are severe, worsening, or you feel unsafe, seek urgent in-person medical care immediately." }

/-- `ChatbotService._fallback_for_any_message` (note: the health check here is
made without conversation history). -/
def fallbackForAnyMessage (p : ChatPayload) : AssessmentData :=
  if looksLikeHealthMessage p [] then fallbackAssessment p else fallbackGeneralMessage p

/-- `ChatbotService.assess_health_input`.  `enabled` is the provider client's
`enabled` flag; `providerResult` is the outcome of the `generate_json` call
(`Except.error` = any exception raised by the network call or the response
parse).  The `try/except` around the provider-normalise-validate chain maps
every failure to `_fallback_for_any_message`.  `AssessmentData.model_validate`
always succeeds on the normaliser's output (every field already has its schema
type and the urgency is one of the four enum values), so it introduces no
further failure. -/
def assessHealthInput (enabled : Bool) (p : ChatPayload) (history : List HistoryTurn)
    (providerResult : Except String JValue) : AssessmentData :=
  if ¬enabled then fallbackForAnyMessage p
  else
    let healthRelated := looksLikeHealthMessage p history
    match providerResult with
    | .error _ => fallbackForAnyMessage p
    | .ok parsed =>
        match normalizeAssessmentPayload parsed healthRelated with
        | .ok a => a
        | .error _ => fallbackForAnyMessage p

/-! ## The sliding-window rate limiter (`app/core/security.py`)

`_enforce_rate_limit` acts on one `(bucket, client_key)` deque of the global
store; distinct keys never share state, so the model tracks a single key's
deque.  Timestamps are modelled as integers (only their ordering matters).
The whole prune-decide-record sequence runs under `_rate_limit_lock`, so a
trace of calls is a sequence of atomic steps. -/

/-- One `_enforce_rate_limit` call on one key's deque: with `max_requests <= 0`
(modelled as `maxReq = 0` over `Nat`) every call is admitted untouched;
otherwise pop entries older than `now - window_seconds` from the front, reject
without recording when at least `max_requests` remain, else record `now` and
admit.  Returns (admitted?, new deque). -/
def rlAdmit (maxReq : Nat) (window now : Int) (entries : List Int) : Bool × List Int :=
  if maxReq = 0 then (true, entries)
  else if maxReq ≤ (entries.dropWhile fun t => decide (t < now - window)).length then
    (false, entries.dropWhile fun t => decide (t < now - window))
  else (true, (entries.dropWhile fun t => decide (t < now - window)) ++ [now])

/-- Run a trace of calls (their `datetime.now` values, in call order) against one
key, accumulating the admitted timestamps. -/
def rlRunAux (maxReq : Nat) (window : Int) (admitted entries : List Int) :
    List Int → List Int × List Int
  | [] => (admitted, entries)
  | now :: rest =>
      rlRunAux maxReq window
        (if (rlAdmit maxReq window now entries).1 then admitted ++ [now] else admitted)
        (rlAdmit maxReq window now entries).2 rest

/-- The timestamps of the admitted calls of a trace. -/
def rlAdmittedTimes (maxReq : Nat) (window : Int) (calls : List Int) : List Int :=
  (rlRunAux maxReq window [] [] calls).1

/-! ## `ChatAnalysisService` (`app/services/chat_analysis.py`) -/

/-- An `EvidenceSource`. -/
structure EvidenceSource where
  title : String
  url : String
  snippet : String
  deriving DecidableEq, Repr

/-- A `ConditionAnalysis` (confidence as a rational). -/
structure ConditionAnalysis where
  condition : String
  confidence : ℚ
  rationale : String
  related_symptoms : List String
  recommended_remedies : List String
  doctor_specialties : List String
  evidence : List EvidenceSource
  deriving DecidableEq, Repr

/-- The fields of a stored `ChatRecord` that `_fallback_analysis` reads. -/
structure ChatRecordData where
  chat_number : Nat
  chat_id : String
  symptoms : List SymptomInput
  deriving DecidableEq, Repr

/-- A `StoredChatAnalysisResponse` (without `analyzed_at`, a wall-clock read
that no claim concerns). -/
structure StoredChatAnalysis where
  chat_number : Nat
  session_id : String
  urgency_level : String
  urgency_reason : String
  seek_care_within : String
  conditions : List ConditionAnalysis
  recommended_remedies : List String
  red_flags : List String
  disclaimer : String
  deriving DecidableEq, Repr

/-- The emergency keyword set of `ChatAnalysisService._fallback_analysis`. -/
def analysisEmergencyKeywords : List String :=
  ["chest pain", "shortness of breath", "difficulty breathing", "seizure", "stroke"]

/-- The high-risk keyword set of `ChatAnalysisService._fallback_analysis`. -/
def analysisHighKeywords : List String :=
  ["high fever", "persistent vomiting", "blood in stool", "severe headache"]

/-- The running maximum of the stored severities (`max_severity`, starting at 0). -/
def maxSeverity (symptoms : List SymptomInput) : Nat :=
  symptoms.foldl (fun m s => max m s.severity) 0

/-- `ChatAnalysisService._fallback_analysis`.  Symptom names are lowercased and
matched against the keyword sets by exact set membership (`set.intersection`),
not substring search. -/
def fallbackAnalysis (record : ChatRecordData) (evidence : List EvidenceSource) :
    StoredChatAnalysis :=
  let names := record.symptoms.map (fun s => pyLower s.name)
  let maxSev := maxSeverity record.symptoms
  let tier : String × String × String :=
    if names.any (fun n => analysisEmergencyKeywords.contains n) || decide (maxSev ≥ 9) then
      ("emergency",
       "Emergency-pattern symptoms or very high severity are present.",
       "Immediately. Seek emergency care now.")
    else if names.any (fun n => analysisHighKeywords.contains n) || decide (maxSev ≥ 7) then
      ("high",
       "High-risk symptom pattern or high severity suggests urgent in-person care.",
       "Within 4-12 hours.")
    else if maxSev ≥ 4 then
      ("medium",
       "Symptoms appear moderate and should be reviewed soon.",
       "Within 24-48 hours if not improving.")
    else
      ("low",
       "Symptoms currently appear mild.",
       "Routine care if persistent or worsening.")
  let topEvidence := evidence.take 3
  let conditions : List ConditionAnalysis :=
    if ¬topEvidence.isEmpty then
      [{ condition := "Possible symptom-related condition"
         confidence := 3 / 10
         rationale := "Based on stored symptom profile; evidence is limited."
         related_symptoms := (record.symptoms.take 5).map (fun s => s.name)
         recommended_remedies :=
           ["Rest and hydration.",
            "Monitor symptom progression and severity.",
            "Use only clinician- or pharmacist-approved medication."]
         doctor_specialties := ["General Practice", "Internal Medicine"]
         evidence := topEvidence }]
    else []
  { chat_number := record.chat_number
    session_id := record.chat_id
    urgency_level := tier.1
    urgency_reason := tier.2.1
    seek_care_within := tier.2.2
    conditions := conditions
    recommended_remedies :=
      ["Rest, fluids, and avoid known triggers.",
       "Track symptoms over time for clinician review.",
       "Seek urgent care if red flags appear."]
    red_flags :=
      ["Severe chest pain",
       "Difficulty breathing",
       "Fainting or confusion",
       "Uncontrolled bleeding"]
    disclaimer := "This output is decision support, not a diagnosis. It may be incomplete without clinical examination." }

/-! ## Helper lemmas -/

/-- Inversion for a successful `Except.bind`. -/
theorem except_bind_ok {ε α β : Type} {x : Except ε α} {f : α → Except ε β} {b : β}
    (h : x >>= f = .ok b) : ∃ a, x = .ok a ∧ f a = .ok b := by
  cases x with
  | ok a => exact ⟨a, rfl, h⟩
  | error e => simp [Bind.bind, Except.bind] at h

/-- Did the computation finish without an exception? -/
def exceptOk {ε : Type u} {α : Type v} : Except ε α → Bool
  | .ok _ => true
  | .error _ => false

/-- A Bool-valued classifier: is the value a string the urgency normaliser
recognises (strip + lowercase lands in the token set)? -/
def isRecognizedUrgencyString : JValue → Bool
  | .jstr s => decide (pyLower (pyStrip s) ∈ urgencyTokens)
  | _ => false

/-- A Bool-valued classifier for Python's `isinstance(value, (int, float))`
(`bool` is a subclass of `int`, so it counts as numeric). -/
def isPyNumeric : JValue → Bool
  | .jnum _ => true
  | .jbool _ => true
  | _ => false

/-! ## C5 — second-person rewrite -/

/-- A sample normalized assessment whose summary speaks of the user in the
third person. -/
def thirdPersonSample : AssessmentData :=
  { assistant_message := ""
    show_structured_output := true
    summary := "the user is tired"
    follow_up_questions := []
    possible_conditions := []
    possible_remedies := []
    urgency_level := "low"
    urgency_reason := ""
    seek_care_within := ""
    red_flags := []
    specialist_types := []
    safety_disclaimer := "" }

set_option maxHeartbeats 2000000 in
/-- C5 counterexample: on a summary containing "the user is", the rewrite pass
produces "you is" (the earlier table entry "the user" → "you" consumes the
occurrence before "user is" → "you are" can match), so the result does not
contain "you are". -/
theorem claim_C5_cex :
    (enforceSecondPersonVoice thirdPersonSample).summary = "you is tired" ∧
    ¬ ("you are".toList <:+: (enforceSecondPersonVoice thirdPersonSample).summary.toList) := by
  constructor
  · decide
  · decide

set_option maxHeartbeats 4000000 in
/-- C5 (amended): the rewrite pass applies the fixed replacement table, in
order, to every scalar text field and every list string field (urgency level
and the structured-output flag are untouched); because "The/the user" and
"The/the patient" are rewritten to "You/you" first, a field containing
"the user is" ends up containing "you is" in its place and one containing
"the patient has" ends up containing "you has"; the "you are" / "you have"
forms arise from occurrences of "user is" / "patient has" that no earlier
rule consumed. -/
theorem claim_C5_amended :
    (∀ a : AssessmentData,
      (enforceSecondPersonVoice a).assistant_message = rewriteSecondPerson a.assistant_message ∧
      (enforceSecondPersonVoice a).summary = rewriteSecondPerson a.summary ∧
      (enforceSecondPersonVoice a).urgency_reason = rewriteSecondPerson a.urgency_reason ∧
      (enforceSecondPersonVoice a).seek_care_within = rewriteSecondPerson a.seek_care_within ∧
      (enforceSecondPersonVoice a).safety_disclaimer = rewriteSecondPerson a.safety_disclaimer ∧
      (enforceSecondPersonVoice a).follow_up_questions = a.follow_up_questions.map rewriteSecondPerson ∧
      (enforceSecondPersonVoice a).possible_conditions = a.possible_conditions.map rewriteSecondPerson ∧
      (enforceSecondPersonVoice a).possible_remedies = a.possible_remedies.map rewriteSecondPerson ∧
      (enforceSecondPersonVoice a).red_flags = a.red_flags.map rewriteSecondPerson ∧
      (enforceSecondPersonVoice a).specialist_types = a.specialist_types.map rewriteSecondPerson ∧
      (enforceSecondPersonVoice a).urgency_level = a.urgency_level ∧
      (enforceSecondPersonVoice a).show_structured_output = a.show_structured_output) ∧
    rewriteSecondPerson "the user is tired" = "you is tired" ∧
    rewriteSecondPerson "user is tired" = "you are tired" ∧
    rewriteSecondPerson "the patient has fever" = "you has fever" ∧
    rewriteSecondPerson "patient has fever" = "you have fever" := by
  refine ⟨fun a => ?_, by decide, by decide, by decide, by decide⟩
  cases a
  exact ⟨rfl, rfl, rfl, rfl, rfl, rfl, rfl, rfl, rfl, rfl, rfl, rfl⟩

/-- C5 witness: the amended theorem applied at the third-person sample. -/
theorem claim_C5_witness :
    (enforceSecondPersonVoice thirdPersonSample).summary =
      rewriteSecondPerson "the user is tired" :=
  (claim_C5_amended.1 thirdPersonSample).2.1

/-! ## C6 — urgency normalisation -/

/-- C6: a string equal to one of the four urgency tokens is kept as-is; a
numeric value is bucketed at the 8/6/3 thresholds; any value that is neither a
recognised urgency string nor Python-numeric (`isinstance(value, (int, float))`)
normalises to "medium", never "low". -/
theorem claim_C6 :
    (∀ s ∈ urgencyTokens, normalizeUrgency (.jstr s) = s) ∧
    (∀ q : ℚ, normalizeUrgency (.jnum q) =
      if q ≥ 8 then "emergency" else if q ≥ 6 then "high"
      else if q ≥ 3 then "medium" else "low") ∧
    (∀ v : JValue, isRecognizedUrgencyString v = false → isPyNumeric v = false →
      normalizeUrgency v = "medium") := by
  refine ⟨by decide, fun q => rfl, fun v h1 h2 => ?_⟩
  cases v with
  | jstr s =>
      simp only [isRecognizedUrgencyString, decide_eq_false_iff_not] at h1
      simp [normalizeUrgency, h1]
  | jnum q => simp [isPyNumeric] at h2
  | jbool b => simp [isPyNumeric] at h2
  | jnull => rfl
  | jarr xs => rfl
  | jobj fs => rfl

/-- C6 witness: the theorem applied at the token "high", at the non-string
non-numeric value `[]` (which normalises to "medium"), and at the score 7. -/
theorem claim_C6_witness :
    ("high" ∈ urgencyTokens ∧ normalizeUrgency (.jstr "high") = "high") ∧
    (isRecognizedUrgencyString (.jarr []) = false ∧ isPyNumeric (.jarr []) = false ∧
      normalizeUrgency (.jarr []) = "medium") :=
  ⟨⟨by decide, claim_C6.1 "high" (by decide)⟩,
   ⟨rfl, rfl, claim_C6.2.2 (.jarr []) rfl rfl⟩⟩

/-! ## C7 — fallback keyword tiers -/

/-- C7: in `_fallback_assessment`, an emergency keyword in the combined
lowercase message-plus-symptom-names haystack forces urgency "emergency" (even
when a high-risk keyword is also present); else a high-risk keyword forces
"high"; else the urgency is "medium". -/
theorem claim_C7 (p : ChatPayload) :
    ((∃ t ∈ emergencyTerms, pySubstr t (fallbackCombined p)) →
      (fallbackAssessment p).urgency_level = "emergency") ∧
    (¬ (∃ t ∈ emergencyTerms, pySubstr t (fallbackCombined p)) →
      (∃ t ∈ highTerms, pySubstr t (fallbackCombined p)) →
      (fallbackAssessment p).urgency_level = "high") ∧
    (¬ (∃ t ∈ emergencyTerms, pySubstr t (fallbackCombined p)) →
      ¬ (∃ t ∈ highTerms, pySubstr t (fallbackCombined p)) →
      (fallbackAssessment p).urgency_level = "medium") := by
  have he : (emergencyTerms.any fun t => decide (pySubstr t (fallbackCombined p))) = true ↔
      ∃ t ∈ emergencyTerms, pySubstr t (fallbackCombined p) := by
    simp [List.any_eq_true]
  have hh : (highTerms.any fun t => decide (pySubstr t (fallbackCombined p))) = true ↔
      ∃ t ∈ highTerms, pySubstr t (fallbackCombined p) := by
    simp [List.any_eq_true]
  refine ⟨fun h1 => ?_, fun h1 h2 => ?_, fun h1 h2 => ?_⟩
  · have hE := he.mpr h1
    simp [fallbackAssessment, hE]
  · have hE : (emergencyTerms.any fun t => decide (pySubstr t (fallbackCombined p))) = false := by
      rw [← Bool.not_eq_true]
      exact fun hc => h1 (he.mp hc)
    have hH := hh.mpr h2
    simp [fallbackAssessment, hE, hH]
  · have hE : (emergencyTerms.any fun t => decide (pySubstr t (fallbackCombined p))) = false := by
      rw [← Bool.not_eq_true]
      exact fun hc => h1 (he.mp hc)
    have hH : (highTerms.any fun t => decide (pySubstr t (fallbackCombined p))) = false := by
      rw [← Bool.not_eq_true]
      exact fun hc => h2 (hh.mp hc)
    simp [fallbackAssessment, hE, hH]

/-! ## C8 — disabled-credentials guard -/

/-- `dropWhile` is idempotent. -/
theorem dropWhile_idem {α : Type} (p : α → Bool) (l : List α) :
    (l.dropWhile p).dropWhile p = l.dropWhile p := by
  induction l with
  | nil => rfl
  | cons x xs ih =>
      by_cases h : p x
      · simp [List.dropWhile_cons, h, ih]
      · simp [List.dropWhile_cons, h]

/-- A prefix of a `dropWhile`-fixed list is itself `dropWhile`-fixed. -/
theorem dropWhile_eq_self_of_prefix {α : Type} {p : α → Bool} {x y : List α}
    (hx : x.dropWhile p = x) (hxy : y <+: x) : y.dropWhile p = y := by
  cases y with
  | nil => rfl
  | cons c ys =>
      obtain ⟨t, ht⟩ := hxy
      rw [List.cons_append] at ht
      subst ht
      rw [List.dropWhile_cons] at hx
      by_cases h : p c
      · exfalso
        rw [if_pos h] at hx
        have hlen := congrArg List.length hx
        have hle : (List.dropWhile p (ys ++ t)).length ≤ (ys ++ t).length :=
          (List.dropWhile_suffix p).sublist.length_le
        simp only [List.length_cons] at hlen
        omega
      · rw [List.dropWhile_cons, if_neg h]

/-- `str.strip()` is idempotent (character-list version). -/
theorem pyStripChars_idem (l : List Char) :
    pyStripChars (pyStripChars l) = pyStripChars l := by
  have hFm : (l.dropWhile pyIsWs).dropWhile pyIsWs = l.dropWhile pyIsWs :=
    dropWhile_idem _ _
  unfold pyStripChars
  set m := l.dropWhile pyIsWs with hm
  set k := (m.reverse.dropWhile pyIsWs).reverse with hk
  have hpre : k <+: m := by
    have hsuf : m.reverse.dropWhile pyIsWs <:+ m.reverse := List.dropWhile_suffix _
    have := List.reverse_prefix.mpr hsuf
    rwa [List.reverse_reverse] at this
  have hk1 : k.dropWhile pyIsWs = k := dropWhile_eq_self_of_prefix hFm hpre
  rw [hk1, hk, List.reverse_reverse, dropWhile_idem]

/-- `str.strip()` is idempotent. -/
theorem pyStrip_idem (s : String) : pyStrip (pyStrip s) = pyStrip s :=
  congrArg String.mk (pyStripChars_idem s.toList)

/-- A `String.mk` is the empty string exactly when its character list is empty. -/
theorem mk_eq_empty_iff (l : List Char) : (⟨l⟩ : String) = "" ↔ l = [] := by
  constructor
  · intro h
    exact congrArg String.data h
  · intro h
    subst h
    rfl

/-- `str.lower()` maps only the empty string to the empty string. -/
theorem pyLower_eq_empty_iff (s : String) : pyLower s = "" ↔ s = "" := by
  unfold pyLower
  rw [mk_eq_empty_iff, List.map_eq_nil_iff]
  cases s with
  | mk l => rw [show String.toList ⟨l⟩ = l from rfl, mk_eq_empty_iff]

/-- C8: the provider client is disabled exactly when no key is configured, the
key is empty after trimming, or the trimmed key (lowercased) begins with the
"your_" placeholder token; and with a disabled client, `assess_health_input`
returns the fallback / non-clinical result for every possible provider-call
outcome (so no network call can influence the result). -/
theorem claim_C8 :
    (llmEnabled none = false) ∧
    (∀ raw : String, llmEnabled (some raw) = false ↔
      (pyStrip raw = "" ∨ pyStartsWith "your_" (pyLower (pyStrip raw)) = true)) ∧
    (∀ (p : ChatPayload) (hist : List HistoryTurn) (chain : Except String JValue),
      assessHealthInput false p hist chain = fallbackForAnyMessage p) := by
  refine ⟨rfl, fun raw => ?_, fun p hist chain => by simp [assessHealthInput]⟩
  simp only [llmEnabled]
  by_cases hk : pyStrip raw = ""
  · simp [hk]
  · rw [if_neg hk, pyStrip_idem]
    have hne : pyLower (pyStrip raw) ≠ "" := fun hcontra =>
      hk ((pyLower_eq_empty_iff _).mp hcontra)
    simp [hne, hk]

/-- C8 witness: the template placeholder "your_api_key_here" is disabled, and a
disabled orchestrator answers a sample request with the fallback result. -/
theorem claim_C8_witness :
    llmEnabled (some "your_api_key_here") = false ∧
    assessHealthInput false ⟨"hello", []⟩ [] (.ok (.jobj [])) =
      fallbackForAnyMessage ⟨"hello", []⟩ :=
  ⟨(claim_C8.2.1 "your_api_key_here").mpr (Or.inr (by decide)),
   claim_C8.2.2 ⟨"hello", []⟩ [] (.ok (.jobj []))⟩

/-! ## C10 — the model cannot set the structured-output flag -/

/-- The rewrite pass never changes the structured-output flag. -/
theorem enforce_show_flag (x : AssessmentData) :
    (enforceSecondPersonVoice x).show_structured_output = x.show_structured_output := by
  cases x
  rfl

/-- C10: every successful normalisation returns an assessment whose
`show_structured_output` equals the health-relatedness classification, whatever
the parsed model response contains. -/
theorem claim_C10 (parsed : JValue) (healthRelated : Bool) (a : AssessmentData)
    (h : normalizeAssessmentPayload parsed healthRelated = .ok a) :
    a.show_structured_output = healthRelated := by
  cases parsed with
  | jobj fs =>
      simp only [normalizeAssessmentPayload] at h
      obtain ⟨l1, h1, h⟩ := except_bind_ok h
      obtain ⟨l2, h2, h⟩ := except_bind_ok h
      obtain ⟨l3, h3, h⟩ := except_bind_ok h
      obtain ⟨l4, h4, h⟩ := except_bind_ok h
      obtain ⟨l5, h5, h⟩ := except_bind_ok h
      simp only [pure, Except.pure, Except.ok.injEq] at h
      subst h
      rw [enforce_show_flag]
      cases healthRelated with
      | false =>
          rw [if_pos (by simp)]
      | true =>
          rw [if_neg (by simp)]
          split <;> rfl
  | jnull => simp [normalizeAssessmentPayload, throw, throwThe, MonadExceptOf.throw] at h
  | jbool b => simp [normalizeAssessmentPayload, throw, throwThe, MonadExceptOf.throw] at h
  | jnum q => simp [normalizeAssessmentPayload, throw, throwThe, MonadExceptOf.throw] at h
  | jstr s => simp [normalizeAssessmentPayload, throw, throwThe, MonadExceptOf.throw] at h
  | jarr xs => simp [normalizeAssessmentPayload, throw, throwThe, MonadExceptOf.throw] at h

/-- A sample successful normalisation (empty model object, health-related). -/
def normSample : AssessmentData :=
  ((normalizeAssessmentPayload (.jobj []) true).toOption).getD (fallbackGeneralMessage ⟨"x", []⟩)

/-- C10 witness: the theorem applied to the empty model object on a
health-related turn. -/
theorem claim_C10_witness :
    normalizeAssessmentPayload (.jobj []) true = .ok normSample ∧
    normSample.show_structured_output = true :=
  ⟨rfl, claim_C10 (.jobj []) true normSample rfl⟩

/-- C7 witness: a message containing both "chest pain" (emergency tier) and
"high fever" (high tier) resolves to "emergency". -/
theorem claim_C7_witness :
    (∃ t ∈ emergencyTerms, pySubstr t (fallbackCombined ⟨"I have chest pain and a high fever", []⟩)) ∧
    (∃ t ∈ highTerms, pySubstr t (fallbackCombined ⟨"I have chest pain and a high fever", []⟩)) ∧
    (fallbackAssessment ⟨"I have chest pain and a high fever", []⟩).urgency_level = "emergency" :=
  ⟨by decide, by decide, (claim_C7 ⟨"I have chest pain and a high fever", []⟩).1 (by decide)⟩

/-! ## C1 — the orchestrator never raises; failures fall back -/

/-- C1: `assess_health_input` is total (it is a function into `AssessmentData`),
and whenever the provider-call-or-normalise chain raises (`exceptOk ... = false`
covers an exception from the network call or response parse, from a non-dict
payload, and from a non-iterable list field), the enabled orchestrator returns
exactly what the disabled orchestrator returns for the same request: the
fallback (or non-clinical) assessment. -/
theorem claim_C1 (p : ChatPayload) (hist : List HistoryTurn) (chain : Except String JValue)
    (hfail : exceptOk (chain >>= fun parsed =>
      normalizeAssessmentPayload parsed (looksLikeHealthMessage p hist)) = false) :
    assessHealthInput true p hist chain = assessHealthInput false p hist chain ∧
    assessHealthInput false p hist chain = fallbackForAnyMessage p := by
  have h2 : assessHealthInput false p hist chain = fallbackForAnyMessage p := by
    simp [assessHealthInput]
  refine ⟨?_, h2⟩
  rw [h2]
  cases chain with
  | error e => simp [assessHealthInput]
  | ok parsed =>
      cases hn : normalizeAssessmentPayload parsed (looksLikeHealthMessage p hist) with
      | ok a =>
          exfalso
          rw [show ((Except.ok parsed : Except String JValue) >>= fun parsed =>
            normalizeAssessmentPayload parsed (looksLikeHealthMessage p hist)) =
            normalizeAssessmentPayload parsed (looksLikeHealthMessage p hist) from rfl,
            hn] at hfail
          simp [exceptOk] at hfail
      | error e => simp [assessHealthInput, hn]

/-- C1 witness: a provider failure on a sample request lands on the fallback. -/
theorem claim_C1_witness :
    exceptOk ((Except.error "boom" : Except String JValue) >>= fun parsed =>
      normalizeAssessmentPayload parsed (looksLikeHealthMessage ⟨"hi", []⟩ [])) = false ∧
    assessHealthInput true ⟨"hi", []⟩ [] (.error "boom") =
      assessHealthInput false ⟨"hi", []⟩ [] (.error "boom") :=
  ⟨rfl, (claim_C1 ⟨"hi", []⟩ [] (.error "boom") rfl).1⟩

/-! ## C3 — defensive JSON parsing -/

/-- C3 counterexample: on the input "oops \x7bbad\x7d" the cleaned text is
non-empty, strict parse fails, the brace substring "\x7bbad\x7d" also fails to
parse — and `_safe_parse_json` raises (the substring `json.loads` is not inside
any `try`), instead of returning the minimal object the claim asserts. -/
theorem claim_C3_cex :
    cleanFence "oops \x7bbad\x7d" ≠ "" ∧
    exceptOk (safeParseJson "oops \x7bbad\x7d") = false :=
  ⟨by decide, by rfl⟩

/-- C3 (amended): after code-fence stripping, a strict parse yielding an object
is returned; on strict-parse failure the substring from the first `\x7b` to the
last `\x7d` is parsed as a last resort when such a pair exists in order, and an
object result is returned; the minimal object built from the cleaned text is
returned only when NO such brace pair exists (or the brace substring parses to a
non-object) and the cleaned text is non-empty; a hard failure (exception) occurs
when the cleaned text is empty — and also when the brace-substring parse itself
fails, which escapes uncaught. -/
theorem claim_C3_amended (text : String) :
    (∀ v, jsonParse (cleanFence text) = some v → v.isObj = true →
      safeParseJson text = .ok v) ∧
    (∀ c v, jsonParse (cleanFence text) = none → braceCandidate (cleanFence text) = some c →
      jsonParse c = some v → v.isObj = true → safeParseJson text = .ok v) ∧
    (jsonParse (cleanFence text) = none → braceCandidate (cleanFence text) = none →
      cleanFence text ≠ "" → safeParseJson text = .ok (minimalObj (cleanFence text))) ∧
    (∀ c, jsonParse (cleanFence text) = none → braceCandidate (cleanFence text) = some c →
      jsonParse c = none → exceptOk (safeParseJson text) = false) ∧
    (cleanFence text = "" → exceptOk (safeParseJson text) = false) := by
  refine ⟨fun v h1 h2 => ?_, fun c v h1 h2 h3 h4 => ?_, fun h1 h2 h3 => ?_,
    fun c h1 h2 h3 => ?_, fun h1 => ?_⟩
  · simp [safeParseJson, h1, h2]
  · simp [safeParseJson, h1, h2, h3, h4]
  · simp [safeParseJson, h1, h2, h3]
  · simp [safeParseJson, h1, h2, h3, exceptOk]
  · simp [safeParseJson, h1, show jsonParse "" = none from rfl,
      show braceCandidate "" = none from rfl, exceptOk]

/-- C3 witness: a plain-prose model reply (no braces anywhere) is kept as the
minimal object rather than raising. -/
theorem claim_C3_witness :
    jsonParse (cleanFence "I think you have a cold") = none ∧
    braceCandidate (cleanFence "I think you have a cold") = none ∧
    cleanFence "I think you have a cold" ≠ "" ∧
    safeParseJson "I think you have a cold" =
      .ok (minimalObj (cleanFence "I think you have a cold")) :=
  ⟨rfl, rfl, by decide, (claim_C3_amended "I think you have a cold").2.2.1 rfl rfl (by decide)⟩

/-! ## C4 — provider-A text extraction -/

/-- A provider-A message whose `content` is the empty string but which carries a
non-empty tool-call argument string. -/
def emptyContentToolCallMsg : JValue :=
  .jobj [("content", .jstr ""),
         ("tool_calls", .jarr [.jobj [("function",
           .jobj [("arguments", .jstr "\x7b\"intent\": \"health_triage\"\x7d")])]])]

/-- C4 counterexample: the string-content shape returns verbatim even when the
string is empty, so the tool-call argument string of this message is never
consulted — extraction yields `""`, not the argument string. -/
theorem claim_C4_cex :
    extractOpenrouterText emptyContentToolCallMsg = "" ∧
    ("\x7b\"intent\": \"health_triage\"\x7d" : String) ≠ "" ∧
    pyStrip "\x7b\"intent\": \"health_triage\"\x7d" ≠ "" :=
  ⟨rfl, by decide, by decide⟩

/-- C4 (amended): the extraction tries the recognised shapes in order — string
content, then a list of content parts, then the tool-call argument string — but
a string `content` is returned verbatim even when empty; the tool-call shape is
consulted only when `content` is neither a string nor a list (for a list that
yields no parts it is consulted as well); in particular a message whose
`content` is `null` with a non-empty tool-call argument string yields that
argument string. -/
theorem claim_C4_amended :
    (∀ fs s, jgetD (.jobj fs) "content" (.jstr "") = .jstr s →
      extractOpenrouterText (.jobj fs) = s) ∧
    (∀ fs, (∀ s, jgetD (.jobj fs) "content" (.jstr "") ≠ .jstr s) →
      (∀ xs, jgetD (.jobj fs) "content" (.jstr "") ≠ .jarr xs) →
      extractOpenrouterText (.jobj fs) =
        extractOpenrouterText.extractToolCallArgs (jgetD (.jobj fs) "tool_calls" (.jarr []))) ∧
    extractOpenrouterText
      (.jobj [("content", .jnull),
              ("tool_calls", .jarr [.jobj [("function",
                .jobj [("arguments", .jstr "\x7b\"a\": 1\x7d")])]])]) =
      "\x7b\"a\": 1\x7d" := by
  refine ⟨fun fs s h => ?_, fun fs h1 h2 => ?_, rfl⟩
  · simp [extractOpenrouterText, h]
  · cases hC : jgetD (.jobj fs) "content" (.jstr "") with
    | jstr s => exact absurd hC (h1 s)
    | jarr xs => exact absurd hC (h2 xs)
    | jnull => simp [extractOpenrouterText, hC]
    | jbool b => simp [extractOpenrouterText, hC]
    | jnum q => simp [extractOpenrouterText, hC]
    | jobj gs => simp [extractOpenrouterText, hC]

/-- C4 witness: a plain string content is extracted verbatim. -/
theorem claim_C4_witness :
    jgetD (.jobj [("content", .jstr "reply")]) "content" (.jstr "") = .jstr "reply" ∧
    extractOpenrouterText (.jobj [("content", .jstr "reply")]) = "reply" :=
  ⟨rfl, claim_C4_amended.1 [("content", .jstr "reply")] "reply" rfl⟩

/-! ## C9 — stored-chat re-analysis fallback -/

/-- C9 counterexample: the re-analysis keyword sets are NOT the same as the main
fallback engine's — "fainted" and "blood pressure" trigger the main engine but
not the re-analysis, "shortness of breath" only the re-analysis; concretely, a
stored record whose only symptom is "fainted" (severity 2) re-analyses to "low"
although the main engine's emergency list contains "fainted" (and the main
engine itself answers "emergency" for it). -/
theorem claim_C9_cex :
    ("fainted" ∈ emergencyTerms ∧ "fainted" ∉ analysisEmergencyKeywords) ∧
    ("blood pressure" ∈ highTerms ∧ "blood pressure" ∉ analysisHighKeywords) ∧
    ("shortness of breath" ∈ analysisEmergencyKeywords ∧
      "shortness of breath" ∉ emergencyTerms) ∧
    (fallbackAnalysis ⟨7, "sess", [⟨"fainted", 2⟩]⟩ []).urgency_level = "low" ∧
    (fallbackAssessment ⟨"I fainted", []⟩).urgency_level = "emergency" := by
  refine ⟨by decide, by decide, by decide, rfl, by decide⟩

/-- C9 (amended): the stored-chat re-analysis fallback buckets on the maximum
symptom severity (`>=9` emergency, `>=7` high, `>=4` medium, else low) combined
with its OWN keyword sets (emergency: chest pain, shortness of breath,
difficulty breathing, seizure, stroke; high: high fever, persistent vomiting,
blood in stool, severe headache), matched by exact lowercase symptom-name
membership — not the main engine's substring-matched lists; it attaches at most
three of the retrieved evidence snippets to the single produced condition entry
when any evidence exists, and returns an empty conditions list when none does. -/
theorem claim_C9_amended (record : ChatRecordData) (evidence : List EvidenceSource) :
    ((∃ s ∈ record.symptoms, pyLower s.name ∈ analysisEmergencyKeywords) ∨
        9 ≤ maxSeverity record.symptoms →
      (fallbackAnalysis record evidence).urgency_level = "emergency") ∧
    (¬ ((∃ s ∈ record.symptoms, pyLower s.name ∈ analysisEmergencyKeywords) ∨
        9 ≤ maxSeverity record.symptoms) →
      ((∃ s ∈ record.symptoms, pyLower s.name ∈ analysisHighKeywords) ∨
        7 ≤ maxSeverity record.symptoms) →
      (fallbackAnalysis record evidence).urgency_level = "high") ∧
    (¬ ((∃ s ∈ record.symptoms, pyLower s.name ∈ analysisEmergencyKeywords) ∨
        9 ≤ maxSeverity record.symptoms) →
      ¬ ((∃ s ∈ record.symptoms, pyLower s.name ∈ analysisHighKeywords) ∨
        7 ≤ maxSeverity record.symptoms) →
      4 ≤ maxSeverity record.symptoms →
      (fallbackAnalysis record evidence).urgency_level = "medium") ∧
    (¬ ((∃ s ∈ record.symptoms, pyLower s.name ∈ analysisEmergencyKeywords) ∨
        9 ≤ maxSeverity record.symptoms) →
      ¬ ((∃ s ∈ record.symptoms, pyLower s.name ∈ analysisHighKeywords) ∨
        7 ≤ maxSeverity record.symptoms) →
      maxSeverity record.symptoms < 4 →
      (fallbackAnalysis record evidence).urgency_level = "low") ∧
    (evidence = [] → (fallbackAnalysis record evidence).conditions = []) ∧
    (evidence ≠ [] →
      (fallbackAnalysis record evidence).conditions.map (fun c => c.evidence) =
        [evidence.take 3]) ∧
    (∀ c ∈ (fallbackAnalysis record evidence).conditions, c.evidence.length ≤ 3) := by
  refine ⟨fun h1 => ?_, fun h1 h2 => ?_, fun h1 h2 h3 => ?_, fun h1 h2 h3 => ?_,
    fun h1 => ?_, fun h1 => ?_, fun c hc => ?_⟩
  · simp [fallbackAnalysis, h1]
  · rw [not_or] at h1
    simp [fallbackAnalysis, h1.1, h1.2, h2]
  · rw [not_or] at h1 h2
    simp [fallbackAnalysis, h1.1, h1.2, h2.1, h2.2, h3]
  · rw [not_or] at h1 h2
    have h4 : ¬ 4 ≤ maxSeverity record.symptoms := by omega
    simp [fallbackAnalysis, h1.1, h1.2, h2.1, h2.2, h4]
  · simp [fallbackAnalysis, h1]
  · have hne : (evidence.take 3).isEmpty = false := by
      rw [List.isEmpty_eq_false_iff_exists_mem]
      cases evidence with
      | nil => exact absurd rfl h1
      | cons e es => exact ⟨e, by simp⟩
    simp [fallbackAnalysis, hne]
  · by_cases hne : (evidence.take 3).isEmpty
    · simp [fallbackAnalysis, hne] at hc
    · rw [Bool.not_eq_true] at hne
      simp [fallbackAnalysis, hne] at hc
      rw [hc]
      simp [List.length_take]

/-- C9 witness: a record whose symptom name lowercases into the re-analysis
emergency set, with four evidence items: the result is "emergency" and the
condition entry carries exactly the first three snippets. -/
theorem claim_C9_witness :
    (∃ s ∈ (⟨3, "abc", [⟨"Stroke", 2⟩]⟩ : ChatRecordData).symptoms,
      pyLower s.name ∈ analysisEmergencyKeywords) ∧
    (fallbackAnalysis ⟨3, "abc", [⟨"Stroke", 2⟩]⟩
      [⟨"t1", "u1", "s1"⟩, ⟨"t2", "u2", "s2"⟩, ⟨"t3", "u3", "s3"⟩, ⟨"t4", "u4", "s4"⟩]).urgency_level = "emergency" ∧
    (fallbackAnalysis ⟨3, "abc", [⟨"Stroke", 2⟩]⟩
      [⟨"t1", "u1", "s1"⟩, ⟨"t2", "u2", "s2"⟩, ⟨"t3", "u3", "s3"⟩, ⟨"t4", "u4", "s4"⟩]).conditions.map
        (fun c => c.evidence) =
      [[⟨"t1", "u1", "s1"⟩, ⟨"t2", "u2", "s2"⟩, ⟨"t3", "u3", "s3"⟩]] :=
  ⟨by decide,
   (claim_C9_amended ⟨3, "abc", [⟨"Stroke", 2⟩]⟩ _).1 (Or.inl (by decide)),
   by
    have := (claim_C9_amended ⟨3, "abc", [⟨"Stroke", 2⟩]⟩
      [⟨"t1", "u1", "s1"⟩, ⟨"t2", "u2", "s2"⟩, ⟨"t3", "u3", "s3"⟩, ⟨"t4", "u4", "s4"⟩]).2.2.2.2.2.1
      (by decide)
    simpa using this⟩

/-! ## C2 — the sliding-window rate-limit invariant -/

/-- On a sorted list, popping strictly-older-than-`b` entries from the front
removes exactly the strictly-older-than-`b` entries. -/
theorem sorted_dropWhile_lt {b : Int} {l : List Int} (h : l.Sorted (· ≤ ·)) :
    l.dropWhile (fun t => decide (t < b)) = l.filter (fun t => decide (b ≤ t)) := by
  induction l with
  | nil => rfl
  | cons t rest ih =>
      rw [List.sorted_cons] at h
      obtain ⟨hall, hrest⟩ := h
      by_cases htb : t < b
      · rw [List.dropWhile_cons, if_pos (decide_eq_true htb), List.filter_cons,
          if_neg (by simp only [decide_eq_true_eq]; omega)]
        exact ih hrest
      · rw [List.dropWhile_cons, if_neg (by simp only [decide_eq_true_eq]; exact htb),
          List.filter_cons, if_pos (by simp only [decide_eq_true_eq]; omega),
          List.filter_eq_self.mpr]
        intro x hx
        simp only [decide_eq_true_eq]
        have := hall x hx
        omega

/-- Filtering by a stronger predicate factors through filtering by a weaker one. -/
theorem filter_filter_of_imp {α : Type} {p q : α → Bool} (l : List α)
    (h : ∀ x ∈ l, q x = true → p x = true) :
    (l.filter p).filter q = l.filter q := by
  induction l with
  | nil => rfl
  | cons x xs ih =>
      have ih2 := ih (fun y hy => h y (List.mem_cons_of_mem x hy))
      by_cases hq : q x = true
      · have hp := h x (List.mem_cons_self x xs) hq
        simp [List.filter_cons, hq, hp, ih2]
      · by_cases hp : p x = true
        · simp [List.filter_cons, hq, hp, ih2]
        · simp [List.filter_cons, hq, hp, ih2]

/-- Filtering by a stronger predicate yields no more elements than filtering by
a weaker one. -/
theorem length_filter_le_of_imp {α : Type} {p q : α → Bool} (l : List α)
    (h : ∀ x ∈ l, q x = true → p x = true) :
    (l.filter q).length ≤ (l.filter p).length := by
  rw [← filter_filter_of_imp l h]
  exact List.length_filter_le _ _

/-- The per-key invariant of the rate-limit store, after a call at `lastNow`:
the deque holds exactly the admitted timestamps still inside the window, the
admitted timestamps are nondecreasing and no later than `lastNow`, and every
window-long closed interval contains at most `maxReq` admitted timestamps. -/
def RLInv (maxReq : Nat) (window lastNow : Int) (admitted entries : List Int) : Prop :=
  entries = admitted.filter (fun t => decide (lastNow - window ≤ t)) ∧
  admitted.Sorted (· ≤ ·) ∧
  (∀ t ∈ admitted, t ≤ lastNow) ∧
  ∀ a : Int,
    ((admitted.filter fun t => decide (a ≤ t) && decide (t ≤ a + window)).length ≤ maxReq)

/-- One `_enforce_rate_limit` call preserves the invariant (and advances its
clock), whether it admits or rejects. -/
theorem rlAdmit_inv {maxReq : Nat} {window lastNow now : Int} {admitted entries : List Int}
    (hmax : 0 < maxReq) (hwin : 0 ≤ window) (hle : lastNow ≤ now)
    (hinv : RLInv maxReq window lastNow admitted entries) :
    RLInv maxReq window now
      (if (rlAdmit maxReq window now entries).1 then admitted ++ [now] else admitted)
      (rlAdmit maxReq window now entries).2 := by
  obtain ⟨hE, hS, hB, hC⟩ := hinv
  have hmaxne : ¬ maxReq = 0 := Nat.pos_iff_ne_zero.mp hmax
  have hpruned : entries.dropWhile (fun t => decide (t < now - window)) =
      admitted.filter (fun t => decide (now - window ≤ t)) := by
    rw [hE, sorted_dropWhile_lt (hS.filter _), filter_filter_of_imp]
    intro x hx hq
    simp only [decide_eq_true_eq] at hq ⊢
    omega
  by_cases hfull :
      maxReq ≤ (entries.dropWhile fun t => decide (t < now - window)).length
  · have hr : rlAdmit maxReq window now entries =
        (false, admitted.filter (fun t => decide (now - window ≤ t))) := by
      rw [rlAdmit, if_neg hmaxne, if_pos hfull, hpruned]
    rw [hr]
    exact ⟨rfl, hS, fun t ht => le_trans (hB t ht) hle, hC⟩
  · have hr : rlAdmit maxReq window now entries =
        (true, admitted.filter (fun t => decide (now - window ≤ t)) ++ [now]) := by
      rw [rlAdmit, if_neg hmaxne, if_neg hfull, hpruned]
    have hlt : (admitted.filter fun t => decide (now - window ≤ t)).length < maxReq := by
      rw [← hpruned]
      omega
    rw [hr]
    show RLInv maxReq window now (admitted ++ [now])
      (admitted.filter (fun t => decide (now - window ≤ t)) ++ [now])
    refine ⟨?_, ?_, ?_, ?_⟩
    · show admitted.filter (fun t => decide (now - window ≤ t)) ++ [now] =
        (admitted ++ [now]).filter (fun t => decide (now - window ≤ t))
      rw [List.filter_append,
        show [now].filter (fun t => decide (now - window ≤ t)) = [now] from by
          rw [List.filter_cons, if_pos (by simp only [decide_eq_true_eq]; omega)]
          rfl]
    · refine List.pairwise_append.mpr ⟨hS, List.pairwise_singleton _ _, ?_⟩
      intro x hx y hy
      rw [List.mem_singleton] at hy
      subst hy
      exact le_trans (hB x hx) hle
    · intro t ht
      rcases List.mem_append.mp ht with h | h
      · exact le_trans (hB t h) hle
      · rw [List.mem_singleton] at h
        omega
    · intro a
      rw [List.filter_append]
      by_cases hQ : (decide (a ≤ now) && decide (now ≤ a + window)) = true
      · have hsingle :
            [now].filter (fun t => decide (a ≤ t) && decide (t ≤ a + window)) = [now] := by
          rw [List.filter_cons, if_pos hQ]
          rfl
        rw [hsingle, List.length_append]
        have hQ2 := hQ
        simp only [Bool.and_eq_true, decide_eq_true_eq] at hQ2
        have hsub :
            (admitted.filter fun t => decide (a ≤ t) && decide (t ≤ a + window)).length ≤
            (admitted.filter fun t => decide (now - window ≤ t)).length := by
          apply length_filter_le_of_imp
          intro x hx hq
          simp only [Bool.and_eq_true, decide_eq_true_eq] at hq
          simp only [decide_eq_true_eq]
          omega
        simp only [List.length_singleton]
        omega
      · have hsingle :
            [now].filter (fun t => decide (a ≤ t) && decide (t ≤ a + window)) = [] := by
          rw [List.filter_cons, if_neg hQ]
          rfl
        rw [hsingle, List.length_append]
        simpa using hC a

/-- Running the rest of a sorted trace from an invariant state keeps every
window-long interval at no more than `maxReq` admitted calls. -/
theorem rlRunAux_bound {maxReq : Nat} {window : Int}
    (hmax : 0 < maxReq) (hwin : 0 ≤ window) :
    ∀ (calls : List Int) (lastNow : Int) (admitted entries : List Int),
      calls.Sorted (· ≤ ·) → (∀ c ∈ calls, lastNow ≤ c) →
      RLInv maxReq window lastNow admitted entries →
      ∀ a : Int,
        (((rlRunAux maxReq window admitted entries calls).1.filter
          fun t => decide (a ≤ t) && decide (t ≤ a + window)).length ≤ maxReq)
  | [], _, admitted, entries, _, _, hinv, a => hinv.2.2.2 a
  | now :: rest, lastNow, admitted, entries, hsorted, hge, hinv, a => by
      rw [List.sorted_cons] at hsorted
      obtain ⟨hall, hrest⟩ := hsorted
      have hstep := rlAdmit_inv hmax hwin (hge now (List.mem_cons_self now rest)) hinv
      rw [rlRunAux]
      exact rlRunAux_bound hmax hwin rest now _ _ hrest hall hstep a

/-- C2: for `max_requests > 0` and a trace of calls at nondecreasing clock
readings on one `(bucket, client_key)`, (i) at most `max_requests` of the
admitted calls fall inside any closed interval of length `window_seconds`, and
(ii) each call pops exactly the recorded timestamps older than
`now - window_seconds` from the front of the deque, rejects without recording a
timestamp when at least `max_requests` remain, and otherwise appends `now` and
admits. -/
theorem claim_C2 (maxReq : Nat) (window : Int) (calls : List Int)
    (hmax : 0 < maxReq) (hwin : 0 ≤ window) (hsorted : calls.Sorted (· ≤ ·)) :
    (∀ a : Int,
      ((rlAdmittedTimes maxReq window calls).filter
        fun t => decide (a ≤ t) && decide (t ≤ a + window)).length ≤ maxReq) ∧
    (∀ (now : Int) (entries : List Int),
      rlAdmit maxReq window now entries =
        if maxReq ≤ (entries.dropWhile fun t => decide (t < now - window)).length then
          (false, entries.dropWhile fun t => decide (t < now - window))
        else (true, (entries.dropWhile fun t => decide (t < now - window)) ++ [now])) := by
  constructor
  · intro a
    cases calls with
    | nil => simp [rlAdmittedTimes, rlRunAux]
    | cons c0 rest =>
        have h0 : RLInv maxReq window c0 [] [] := by
          refine ⟨rfl, List.sorted_nil, ?_, ?_⟩
          · intro t ht
            simp at ht
          · intro a2
            simp
        have hge : ∀ c ∈ c0 :: rest, c0 ≤ c := by
          intro c hc
          rcases List.mem_cons.mp hc with h | h
          · omega
          · exact (List.sorted_cons.mp hsorted).1 c h
        exact rlRunAux_bound hmax hwin (c0 :: rest) c0 [] [] hsorted hge h0 a
  · intro now entries
    rw [rlAdmit, if_neg (Nat.pos_iff_ne_zero.mp hmax)]

/-- C2 witness: a trace with limit 2 and a 60-second window: of the four calls
at 0, 10, 20 and 61, those admitted inside the interval from 0 to 60 number at
most 2. -/
theorem claim_C2_witness :
    (0 < 2 ∧ (0 : Int) ≤ 60 ∧ ([0, 10, 20, 61] : List Int).Sorted (· ≤ ·)) ∧
    ((rlAdmittedTimes 2 60 [0, 10, 20, 61]).filter
      fun t => decide ((0 : Int) ≤ t) && decide (t ≤ 0 + 60)).length ≤ 2 :=
  ⟨⟨by decide, by decide, by decide⟩,
   (claim_C2 2 60 [0, 10, 20, 61] (by decide) (by decide) (by decide)).1 0⟩

end HealthBud

